import Mathlib

/-!
# Shallow embedding of `tic_tac_toe/game.py`

This file embeds the Tic-Tac-Toe rules engine of the repository in Lean 4 and
proves the specification claims about it.

Modelling decisions, faithful to the Python source:

* Player identifiers and cell contents are `String`s; an empty cell holds
  the literal string `"-"`, exactly as in the source.
* The board is a `List (List String)` mirroring the Python list-of-lists; a
  fresh board is the literal 3×3 grid of `"-"` from `start_new_game`.
* A position is a `List Int`, modelling a Python tuple of integers of any
  length (so out-of-range pairs and tuples of the wrong length are
  representable, as the source's `_position_is_valid` docstring demands).
* Python truthiness is modelled explicitly: `if game['winner']:` is true
  exactly when the optional value is `some s` with `s ≠ ""` (`None` and the
  empty string are falsy in Python).  Likewise `player != game['next_turn']`
  compares a string against an optional value; in Python a string never
  equals `None`.
* `move` mutates the game dict in place and raises `InvalidMovement` before
  any mutation, or `GameOver` after the mutation is committed.  The embedding
  returns the pair of the post-call game state and an outcome tag: for an
  `InvalidMovement` outcome the returned state equals the input state, and
  for a `GameOver` outcome the returned state is the state at the moment the
  exception is raised (mutation already committed).
* Python list indexing `board[r][c]` raises `IndexError` out of range; it is
  only ever executed on in-range indices (the range check precedes every
  access).  The embedding totalises it with the junk default `""`, which is
  distinct from every cell value the engine ever stores and is never hit on
  the validated paths.
-/

/-- The aggregate game state: the dict produced by `start_new_game`. -/
structure Game where
  player1 : String
  player2 : String
  board : List (List String)
  next_turn : Option String
  winner : Option String
deriving Repr, DecidableEq

/-- Outcome of a call to `move`: an `InvalidMovement` exception (state
unchanged), a `GameOver` exception (state already mutated), or a normal
return. -/
inductive MoveOutcome where
  | invalidMovement (msg : String)
  | gameOver (msg : String)
  | ok
deriving Repr, DecidableEq

/-- Python truthiness of an `Optional[str]` value: `None` and `""` are falsy,
every other string is truthy. -/
def pyTruthy : Option String → Bool
  | none => false
  | some s => !(s == "")

/-- Python `str(...)` of an `Optional[str]` value, as used by
`"{}".format(...)`: `None` prints as `"None"`. -/
def pyStrOpt : Option String → String
  | none => "None"
  | some s => s

/-- Python `==` between a string and an `Optional[str]` value: a string is
never equal to `None`. -/
def pyEqOpt (s : String) : Option String → Bool
  | none => false
  | some t => s == t

/-- Python `board[r][c]`, totalised with the junk default `""` (never a cell
value; only reached on indices the engine never uses). -/
def boardCell (board : List (List String)) (r c : Nat) : String :=
  (board.getD r []).getD c ""

/-- Python `board[r][c] = v` (in-range in every actual use). -/
def setCell (board : List (List String)) (r c : Nat) (v : String) : List (List String) :=
  board.set r ((board.getD r []).set c v)

/-- Python `position[0]` read as a board row index (as used after the range
check has ensured `position` is a valid pair). -/
def posRow (position : List Int) : Nat :=
  (position.getD 0 0).toNat

/-- Python `position[1]` read as a board column index (as used after the range
check has ensured `position` is a valid pair). -/
def posCol (position : List Int) : Nat :=
  (position.getD 1 0).toNat

/-- `_position_is_empty_in_board(position, board)`: checks whether
`board[position[0]][position[1]] == '-'`. -/
def _position_is_empty_in_board (position : List Int) (board : List (List String)) : Bool :=
  boardCell board (posRow position) (posCol position) == "-"

/-- The literal `valid_positions` tuple from `_position_is_valid`, duplicates
included (the source lists the 9 cells three times over, grouped as
horizontals, verticals and diagonals). -/
def valid_positions : List (List Int) :=
  [ [0, 0], [0, 1], [0, 2],
    [1, 0], [1, 1], [1, 2],
    [2, 0], [2, 1], [2, 2],

    [0, 0], [1, 0], [2, 0],
    [0, 1], [1, 1], [2, 1],
    [0, 2], [1, 2], [2, 2],

    [0, 0], [1, 1], [2, 2],
    [2, 0], [1, 1], [0, 2] ]

/-- `_position_is_valid(position)`: membership test against the literal
`valid_positions` tuple. -/
def _position_is_valid (position : List Int) : Bool :=
  valid_positions.contains position

/-- `_board_is_full(board)`: `False` as soon as some cell is `'-'`, `True`
otherwise. -/
def _board_is_full (board : List (List String)) : Bool :=
  board.all (fun i => i.all (fun j => !(j == "-")))

/-- `_is_winning_combination(board, combination, player)`: all three
positions of the combination hold `player`'s mark. -/
def _is_winning_combination (board : List (List String))
    (combination : List (Nat × Nat)) (player : String) : Bool :=
  combination.all (fun p => boardCell board p.1 p.2 == player)

/-- The literal `combinations` tuple from `_check_winning_combinations`:
3 horizontals, 3 verticals, 2 diagonals. -/
def combinations : List (List (Nat × Nat)) :=
  [ [(0, 0), (0, 1), (0, 2)],
    [(1, 0), (1, 1), (1, 2)],
    [(2, 0), (2, 1), (2, 2)],

    [(0, 0), (1, 0), (2, 0)],
    [(0, 1), (1, 1), (2, 1)],
    [(0, 2), (1, 2), (2, 2)],

    [(0, 0), (1, 1), (2, 2)],
    [(2, 0), (1, 1), (0, 2)] ]

/-- `_check_winning_combinations(board, player)`: returns `player` if some
combination is fully marked by `player`, and `None` otherwise. -/
def _check_winning_combinations (board : List (List String)) (player : String) :
    Option String :=
  if combinations.any (fun c => _is_winning_combination board c player) then
    some player
  else
    none

/-- `start_new_game(player1, player2)`. -/
def start_new_game (player1 player2 : String) : Game :=
  { player1 := player1
    player2 := player2
    board := [ ["-", "-", "-"],
               ["-", "-", "-"],
               ["-", "-", "-"] ]
    next_turn := some player1
    winner := none }

/-- `get_winner(game)`. -/
def get_winner (game : Game) : Option String :=
  game.winner

/-- `get_next_turn(game)`. -/
def get_next_turn (game : Game) : Option String :=
  game.next_turn

/-- `move(game, player, position)`: the four validation checks in source
order, then the mark, then win / tie / continue resolution.  Returns the
post-call state paired with the outcome (see the module docstring). -/
def move (game : Game) (player : String) (position : List Int) :
    Game × MoveOutcome :=
  let board := game.board
  if pyTruthy game.winner || _board_is_full board then
    (game, .invalidMovement "Game is over.")
  else if !(pyEqOpt player (get_next_turn game)) then
    (game, .invalidMovement ("\"" ++ pyStrOpt game.next_turn ++ "\" moves next."))
  else if !(_position_is_valid position) then
    (game, .invalidMovement "Position out of range.")
  else if !(_position_is_empty_in_board position board) then
    (game, .invalidMovement "Position already taken.")
  else
    let board2 := setCell board (posRow position) (posCol position) player
    let winner := _check_winning_combinations board2 player
    if pyTruthy winner then
      ({ game with board := board2, winner := winner, next_turn := none },
        .gameOver ("\"" ++ pyStrOpt winner ++ "\" wins!"))
    else if _board_is_full board2 then
      ({ game with board := board2, next_turn := none },
        .gameOver "Game is tied!")
    else
      let nt := if game.next_turn == some game.player2 then game.player1 else game.player2
      ({ game with board := board2, next_turn := some nt }, .ok)

/-- `get_board_as_string(game)`: the literal triple-quoted template of the
source (leading and trailing newline, cells separated by two-space `  |  `,
row separators of 14 dashes), formatted with the flattened board. -/
def get_board_as_string (game : Game) : String :=
  let f := game.board.flatten
  "\n" ++ f.getD 0 "" ++ "  |  " ++ f.getD 1 "" ++ "  |  " ++ f.getD 2 "" ++
  "\n--------------\n" ++
  f.getD 3 "" ++ "  |  " ++ f.getD 4 "" ++ "  |  " ++ f.getD 5 "" ++
  "\n--------------\n" ++
  f.getD 6 "" ++ "  |  " ++ f.getD 7 "" ++ "  |  " ++ f.getD 8 "" ++ "\n"

/-- Modelled from the spec: the set of valid positions as the spec states
it — "the 9 valid (row, column) pairs in {0,1,2}×{0,1,2}" — to be compared
with the source's duplicate-laden `valid_positions` tuple. -/
def spec_valid_positions : List (List Int) :=
  [ [0, 0], [0, 1], [0, 2],
    [1, 0], [1, 1], [1, 2],
    [2, 0], [2, 1], [2, 2] ]

/-- Concrete mid-game state, reachable by X(0,0) O(1,0) X(0,1) O(1,1): X is one
mark away from completing the top row. -/
def winReadyGame : Game := { player1 := "X", player2 := "O", board := [["X", "X", "-"], ["O", "O", "-"], ["-", "-", "-"]], next_turn := some "X", winner := none }

/-- Concrete terminal state: X has won the top row. -/
def wonGame : Game := { player1 := "X", player2 := "O", board := [["X", "X", "X"], ["O", "O", "-"], ["-", "-", "-"]], next_turn := none, winner := some "X" }

/-- Concrete state one move away from a tie: only (2,2) is free and marking it
with X completes no combination. -/
def tieReadyGame : Game := { player1 := "X", player2 := "O", board := [["X", "O", "X"], ["X", "O", "O"], ["O", "X", "-"]], next_turn := some "X", winner := none }

/-- Concrete ongoing state with the centre already marked by X. -/
def midGame : Game := { player1 := "X", player2 := "O", board := [["-", "-", "-"], ["-", "X", "-"], ["-", "-", "-"]], next_turn := some "O", winner := none }

theorem getD_set_ne {α : Type} {l : List α} {i j : Nat} (h : i ≠ j) (a d : α) :
    (l.set i a).getD j d = l.getD j d := by
  simp [List.getElem?_set_ne h]

theorem getD_set_self {α : Type} {l : List α} {i : Nat} (h : i < l.length) (a d : α) :
    (l.set i a).getD i d = a := by
  simp [List.getElem?_set_self h]

theorem boardCell_setCell_self {b : List (List String)} {r c : Nat}
    (h : boardCell b r c = "-") (v : String) :
    boardCell (setCell b r c v) r c = v := by
  have hr : r < b.length := by
    by_contra hr
    push_neg at hr
    rw [boardCell, List.getD_eq_default _ _ hr] at h
    simp at h
  have hc : c < (b.getD r []).length := by
    by_contra hc
    push_neg at hc
    rw [boardCell, List.getD_eq_default _ _ hc] at h
    simp at h
  rw [boardCell, setCell, getD_set_self hr, getD_set_self hc]

theorem boardCell_setCell_ne {b : List (List String)} {r c r' c' : Nat} (v : String)
    (h : ¬(r = r' ∧ c = c')) :
    boardCell (setCell b r c v) r' c' = boardCell b r' c' := by
  unfold boardCell setCell
  by_cases hr : r = r'
  · subst hr
    have hc : c ≠ c' := fun e => h ⟨rfl, e⟩
    by_cases hlt : r < b.length
    · rw [getD_set_self hlt, getD_set_ne hc]
    · have hlen : b.length ≤ r := Nat.le_of_not_lt hlt
      have e1 : (b.set r ((b.getD r []).set c v)).getD r [] = ([] : List String) :=
        List.getD_eq_default _ _ (by simpa using hlen)
      have e2 : b.getD r [] = ([] : List String) := List.getD_eq_default _ _ hlen
      rw [e1, e2]
  · rw [getD_set_ne hr]

/-- C2: for every game in a terminal state (truthy winner or full board), every
move call, by either player and with any position, fails with
InvalidMovement "Game is over." — the state is returned unchanged, and the
conclusion holds regardless of player and position, so the check precedes the
turn, range, and occupancy checks. -/
theorem claim_C2_terminal_rejects (g : Game) (p : String) (pos : List Int)
    (h : pyTruthy g.winner = true ∨ _board_is_full g.board = true) :
    move g p pos = (g, .invalidMovement "Game is over.") := by
  rcases h with h | h <;> simp [move, h]

/-- C2 witness: the terminal state `wonGame` rejects any move by O. -/
theorem claim_C2_terminal_rejects_witness :
    move wonGame "O" [1, 2] = (wonGame, .invalidMovement "Game is over.") :=
  claim_C2_terminal_rejects wonGame "O" [1, 2] (Or.inl rfl)

/-- C2 counterexample: the source message carries a trailing period, so a
terminal game does not produce the message "Game is over" the claim states. -/
theorem claim_C2_message_cex :
    (move wonGame "O" [1, 2]).2 = .invalidMovement "Game is over." ∧
    (move wonGame "O" [1, 2]).2 ≠ .invalidMovement "Game is over" := by
  exact ⟨rfl, by decide⟩

/-- C5: in a non-terminal game, a move by a player other than the one that
`next_turn` designates fails, for any position, with the message naming the
current `next_turn` wrapped in double quotes and ending in a period; the
conclusion is independent of the position, so the check precedes the range and
occupancy checks. -/
theorem claim_C5_wrong_turn_rejects (g : Game) (p : String) (pos : List Int)
    (h1 : pyTruthy g.winner = false) (h2 : _board_is_full g.board = false)
    (h3 : pyEqOpt p (get_next_turn g) = false) :
    move g p pos = (g, .invalidMovement ("\"" ++ pyStrOpt g.next_turn ++ "\" moves next.")) := by
  simp [move, h1, h2, h3]

/-- C5 witness: in a fresh game of X versus O, O moving first is rejected with
the message naming X. -/
theorem claim_C5_wrong_turn_rejects_witness :
    move (start_new_game "X" "O") "O" [0, 0] =
      (start_new_game "X" "O",
        .invalidMovement ("\"" ++ pyStrOpt (start_new_game "X" "O").next_turn ++ "\" moves next.")) :=
  claim_C5_wrong_turn_rejects (start_new_game "X" "O") "O" [0, 0] rfl rfl rfl

/-- C5 counterexample: the source wraps the player identifier in double quotes
and appends a period, so the message is not "X moves next" as the claim
states. -/
theorem claim_C5_message_cex :
    (move (start_new_game "X" "O") "O" [0, 0]).2 = .invalidMovement "\"X\" moves next." ∧
    (move (start_new_game "X" "O") "O" [0, 0]).2 ≠ .invalidMovement "X moves next" := by
  exact ⟨rfl, by decide⟩

theorem move_state_or_signal (g : Game) (p : String) (pos : List Int) :
    (move g p pos).1 = g ∨ (move g p pos).2 = .ok ∨ ∃ m, (move g p pos).2 = .gameOver m := by
  simp only [move]
  split
  · exact Or.inl rfl
  · split
    · exact Or.inl rfl
    · split
      · exact Or.inl rfl
      · split
        · exact Or.inl rfl
        · split
          · exact Or.inr (Or.inr ⟨_, rfl⟩)
          · split
            · exact Or.inr (Or.inr ⟨_, rfl⟩)
            · exact Or.inr (Or.inl rfl)

/-- C10: whenever move signals InvalidMovement, the returned state is exactly
the input state — board, winner, next_turn, player1 and player2 all keep
their prior values; every validation check runs before any mutation. -/
theorem claim_C10_invalid_leaves_state (g : Game) (p : String) (pos : List Int)
    (msg : String) (h : (move g p pos).2 = .invalidMovement msg) :
    (move g p pos).1 = g := by
  rcases move_state_or_signal g p pos with h1 | h2 | ⟨m, h2⟩
  · exact h1
  · rw [h2] at h
    exact absurd h (by simp)
  · rw [h2] at h
    exact absurd h (by simp)

/-- C10 witness: a rejected out-of-turn move on a fresh game leaves the game
equal to the fresh game. -/
theorem claim_C10_invalid_leaves_state_witness :
    (move (start_new_game "X" "O") "O" [0, 0]).1 = start_new_game "X" "O" :=
  claim_C10_invalid_leaves_state (start_new_game "X" "O") "O" [0, 0]
    ("\"X\" moves next.") rfl


/-- C1: if a move by a player with a truthy (non-empty) identifier passes all
four validation checks and marking the chosen cell completes at least one of
the 8 fixed winning combinations, then move sets winner to that player and
next_turn to none, and signals GameOver with the message naming the winner in
double quotes followed by " wins!"; the returned state at the moment of the
signal already carries the cell mark and both field mutations. -/
theorem claim_C1_win_commits (g : Game) (p : String) (pos : List Int)
    (h1 : pyTruthy g.winner = false) (h2 : _board_is_full g.board = false)
    (h3 : pyEqOpt p (get_next_turn g) = true)
    (h4 : _position_is_valid pos = true)
    (h5 : _position_is_empty_in_board pos g.board = true)
    (hp : p ≠ "")
    (hw : combinations.any (fun c => _is_winning_combination
            (setCell g.board (posRow pos) (posCol pos) p) c p) = true) :
    move g p pos =
      ({ g with board := setCell g.board (posRow pos) (posCol pos) p, winner := some p, next_turn := none },
        .gameOver ("\"" ++ p ++ "\" wins!")) := by
  have hw' : _check_winning_combinations (setCell g.board (posRow pos) (posCol pos) p) p
      = some p := by
    unfold _check_winning_combinations
    rw [hw]
    rfl
  have hpt : pyTruthy (some p) = true := by simp [pyTruthy, hp]
  simp [move, h1, h2, h3, h4, h5, hw', hpt, pyStrOpt]

/-- C1 witness: from `winReadyGame`, X marking (0,2) completes the top row. -/
theorem claim_C1_win_commits_witness :
    move winReadyGame "X" [0, 2] =
      ({ winReadyGame with board := setCell winReadyGame.board (posRow [0, 2]) (posCol [0, 2]) "X", winner := some "X", next_turn := none },
        .gameOver ("\"" ++ "X" ++ "\" wins!")) :=
  claim_C1_win_commits winReadyGame "X" [0, 2] rfl rfl rfl rfl rfl (by decide) rfl

/-- C1 counterexample: the winning move from `winReadyGame` signals GameOver
with message "\"X\" wins!" — the winner name set in double quotes — not
"X wins!" as the claim states. -/
theorem claim_C1_message_cex :
    (move winReadyGame "X" [0, 2]).2 = .gameOver "\"X\" wins!" ∧
    (move winReadyGame "X" [0, 2]).2 ≠ .gameOver "X wins!" := by
  exact ⟨rfl, by decide⟩

/-- C3: a valid move that completes no winning combination and leaves the
board not yet full commits the mark, returns normally, and flips next_turn
driven by its prior value: player1 if next_turn was player2, else player2.
Consequently, with distinct players, next_turn strictly alternates: if it was
player1 it becomes player2 and if it was player2 it becomes player1. -/
theorem claim_C3_turn_alternation (g : Game) (p : String) (pos : List Int)
    (h1 : pyTruthy g.winner = false) (h2 : _board_is_full g.board = false)
    (h3 : pyEqOpt p (get_next_turn g) = true)
    (h4 : _position_is_valid pos = true)
    (h5 : _position_is_empty_in_board pos g.board = true)
    (hw : _check_winning_combinations (setCell g.board (posRow pos) (posCol pos) p) p = none)
    (hf : _board_is_full (setCell g.board (posRow pos) (posCol pos) p) = false) :
    move g p pos =
      ({ g with board := setCell g.board (posRow pos) (posCol pos) p, next_turn := some (if g.next_turn == some g.player2 then g.player1 else g.player2) },
        .ok) ∧
    (g.player1 ≠ g.player2 →
      (g.next_turn = some g.player1 → (move g p pos).1.next_turn = some g.player2) ∧
      (g.next_turn = some g.player2 → (move g p pos).1.next_turn = some g.player1)) := by
  have hn : pyTruthy none = false := rfl
  have hm : move g p pos =
      ({ g with board := setCell g.board (posRow pos) (posCol pos) p, next_turn := some (if g.next_turn == some g.player2 then g.player1 else g.player2) },
        .ok) := by
    simp [move, h1, h2, h3, h4, h5, hw, hf, hn]
  refine ⟨hm, fun hne => ⟨fun hnt => ?_, fun hnt => ?_⟩⟩
  · rw [hm]
    simp [hnt, hne]
  · rw [hm]
    simp [hnt]

/-- C3 witness: in a fresh game of X versus O, X marking the centre returns
normally and hands the turn to O; the alternation conjunct holds since the
players are distinct. -/
theorem claim_C3_turn_alternation_witness :
    move (start_new_game "X" "O") "X" [1, 1] =
      ({ start_new_game "X" "O" with board := setCell (start_new_game "X" "O").board (posRow [1, 1]) (posCol [1, 1]) "X", next_turn := some (if (start_new_game "X" "O").next_turn == some (start_new_game "X" "O").player2 then (start_new_game "X" "O").player1 else (start_new_game "X" "O").player2) },
        .ok) ∧
    ((start_new_game "X" "O").player1 ≠ (start_new_game "X" "O").player2 →
      ((start_new_game "X" "O").next_turn = some (start_new_game "X" "O").player1 →
        (move (start_new_game "X" "O") "X" [1, 1]).1.next_turn = some (start_new_game "X" "O").player2) ∧
      ((start_new_game "X" "O").next_turn = some (start_new_game "X" "O").player2 →
        (move (start_new_game "X" "O") "X" [1, 1]).1.next_turn = some (start_new_game "X" "O").player1)) :=
  claim_C3_turn_alternation (start_new_game "X" "O") "X" [1, 1] rfl rfl rfl rfl rfl rfl rfl

/-- C4: a valid move that completes no winning combination but fills the
board commits the mark, sets next_turn to none, leaves winner none, and
signals GameOver "Game is tied!"; get_next_turn returns none afterwards and
get_winner returns none. -/
theorem claim_C4_tie (g : Game) (p : String) (pos : List Int)
    (hwn : g.winner = none) (h2 : _board_is_full g.board = false)
    (h3 : pyEqOpt p (get_next_turn g) = true)
    (h4 : _position_is_valid pos = true)
    (h5 : _position_is_empty_in_board pos g.board = true)
    (hw : _check_winning_combinations (setCell g.board (posRow pos) (posCol pos) p) p = none)
    (hf : _board_is_full (setCell g.board (posRow pos) (posCol pos) p) = true) :
    move g p pos =
      ({ g with board := setCell g.board (posRow pos) (posCol pos) p, next_turn := none },
        .gameOver "Game is tied!") ∧
    get_next_turn (move g p pos).1 = none ∧
    get_winner (move g p pos).1 = none := by
  have hn : pyTruthy none = false := rfl
  have hm : move g p pos =
      ({ g with board := setCell g.board (posRow pos) (posCol pos) p, next_turn := none },
        .gameOver "Game is tied!") := by
    simp [move, hwn, h2, h3, h4, h5, hw, hf, hn]
  refine ⟨hm, by rw [hm]; rfl, by rw [hm]; simpa [get_winner] using hwn⟩

/-- C4 witness: from `tieReadyGame`, X filling the last free cell (2,2) ties
the game. -/
theorem claim_C4_tie_witness :
    move tieReadyGame "X" [2, 2] =
      ({ tieReadyGame with board := setCell tieReadyGame.board (posRow [2, 2]) (posCol [2, 2]) "X", next_turn := none },
        .gameOver "Game is tied!") ∧
    get_next_turn (move tieReadyGame "X" [2, 2]).1 = none ∧
    get_winner (move tieReadyGame "X" [2, 2]).1 = none :=
  claim_C4_tie tieReadyGame "X" [2, 2] rfl rfl rfl rfl rfl rfl rfl

theorem position_valid_iff_mem (pos : List Int) :
    _position_is_valid pos = true ↔ pos ∈ spec_valid_positions := by
  simp [_position_is_valid, valid_positions, spec_valid_positions]
  tauto

theorem move_after_range_check (g : Game) (p : String) (pos : List Int)
    (h1 : pyTruthy g.winner = false) (h2 : _board_is_full g.board = false)
    (h3 : pyEqOpt p (get_next_turn g) = true) (hv : _position_is_valid pos = true) :
    (move g p pos).2 = .invalidMovement "Position already taken." ∨
      (move g p pos).2 = .ok ∨ ∃ m, (move g p pos).2 = .gameOver m := by
  simp only [move, h1, h2, h3, hv, Bool.or_self, Bool.not_true]
  repeat' split
  all_goals first
    | exact Or.inl rfl
    | exact Or.inr (Or.inl rfl)
    | exact Or.inr (Or.inr ⟨_, rfl⟩)
    | simp_all

/-- C6: in a non-terminal game, with the designated player moving, move fails
with InvalidMovement "Position out of range." exactly when the position is
not one of the 9 pairs (row, column) with row and column in 0..2 — a list of
integers of any other length or with any out-of-range entry is rejected —
and this holds regardless of the board contents, so the range check precedes
the occupancy check. -/
theorem claim_C6_range_iff (g : Game) (p : String) (pos : List Int)
    (h1 : pyTruthy g.winner = false) (h2 : _board_is_full g.board = false)
    (h3 : pyEqOpt p (get_next_turn g) = true) :
    ((move g p pos).2 = .invalidMovement "Position out of range." ↔
      pos ∉ spec_valid_positions) := by
  by_cases hv : _position_is_valid pos = true
  · have hmem := (position_valid_iff_mem pos).mp hv
    constructor
    · intro hcontra
      rcases move_after_range_check g p pos h1 h2 h3 hv with h | h | ⟨m, h⟩
      · exact absurd (h.symm.trans hcontra) (by decide)
      · rw [h] at hcontra
        exact absurd hcontra (by simp)
      · rw [h] at hcontra
        exact absurd hcontra (by simp)
    · intro hnot
      exact absurd hmem hnot
  · have hv' : _position_is_valid pos = false := by
      simpa using hv
    have hmem : pos ∉ spec_valid_positions := fun hm =>
      hv ((position_valid_iff_mem pos).mpr hm)
    have hm : move g p pos = (g, .invalidMovement "Position out of range.") := by
      simp [move, h1, h2, h3, hv']
    simp [hm, hmem]

/-- C6 witness: in a fresh game, X moving to (0,9) is rejected as out of
range. -/
theorem claim_C6_range_iff_witness :
    (move (start_new_game "X" "O") "X" [0, 9]).2 =
      .invalidMovement "Position out of range." :=
  (claim_C6_range_iff (start_new_game "X" "O") "X" [0, 9] rfl rfl rfl).mpr (by decide)

/-- C6 counterexample: the source message carries a trailing period, so the
rejection message is not "Position out of range" as the claim states. -/
theorem claim_C6_message_cex :
    (move (start_new_game "X" "O") "X" [0, 9]).2 = .invalidMovement "Position out of range." ∧
    (move (start_new_game "X" "O") "X" [0, 9]).2 ≠ .invalidMovement "Position out of range" := by
  exact ⟨rfl, by decide⟩

theorem move_valid_board_eq (g : Game) (p : String) (pos : List Int)
    (h1 : pyTruthy g.winner = false) (h2 : _board_is_full g.board = false)
    (h3 : pyEqOpt p (get_next_turn g) = true)
    (h4 : _position_is_valid pos = true)
    (h5 : _position_is_empty_in_board pos g.board = true) :
    (move g p pos).1.board = setCell g.board (posRow pos) (posCol pos) p := by
  simp only [move, h1, h2, h3, h4, h5, Bool.or_self, Bool.not_true]
  repeat' split
  all_goals first
    | rfl
    | simp_all

/-- C7: in a non-terminal game, with the designated player moving to an
in-range position, a move to an already occupied cell fails with
InvalidMovement "Position already taken." and leaves the state unchanged;
and a move accepted at an empty cell (with a mark other than the empty
marker) leaves that cell occupied, so each position accepts a mark at most
once per game. -/
theorem claim_C7_position_taken (g : Game) (p : String) (pos : List Int)
    (h1 : pyTruthy g.winner = false) (h2 : _board_is_full g.board = false)
    (h3 : pyEqOpt p (get_next_turn g) = true)
    (h4 : _position_is_valid pos = true) :
    (_position_is_empty_in_board pos g.board = false →
      move g p pos = (g, .invalidMovement "Position already taken.")) ∧
    (_position_is_empty_in_board pos g.board = true → p ≠ "-" →
      _position_is_empty_in_board pos (move g p pos).1.board = false) := by
  constructor
  · intro h5
    simp [move, h1, h2, h3, h4, h5]
  · intro h5 hp
    have hb := move_valid_board_eq g p pos h1 h2 h3 h4 h5
    have hcell : boardCell g.board (posRow pos) (posCol pos) = "-" := by
      simpa [_position_is_empty_in_board] using h5
    have hset := boardCell_setCell_self hcell p
    unfold _position_is_empty_in_board
    rw [hb, hset]
    simpa using hp

/-- C7 witness: in `midGame` the centre is occupied by X, so O moving there is
rejected with "Position already taken."; the second conjunct is applied at
the same input. -/
theorem claim_C7_position_taken_witness :
    (_position_is_empty_in_board [1, 1] midGame.board = false →
      move midGame "O" [1, 1] = (midGame, .invalidMovement "Position already taken.")) ∧
    (_position_is_empty_in_board [1, 1] midGame.board = true → "O" ≠ "-" →
      _position_is_empty_in_board [1, 1] (move midGame "O" [1, 1]).1.board = false) :=
  claim_C7_position_taken midGame "O" [1, 1] rfl rfl rfl rfl

/-- C7 counterexample: the source message carries a trailing period, so the
rejection message is not "Position already taken" as the claim states. -/
theorem claim_C7_message_cex :
    (move midGame "O" [1, 1]).2 = .invalidMovement "Position already taken." ∧
    (move midGame "O" [1, 1]).2 ≠ .invalidMovement "Position already taken" := by
  exact ⟨rfl, by decide⟩

theorem move_board_eq_or (g : Game) (p : String) (pos : List Int) :
    (move g p pos).1.board = g.board ∨
      (_position_is_empty_in_board pos g.board = true ∧
        (move g p pos).1.board = setCell g.board (posRow pos) (posCol pos) p) := by
  simp only [move]
  split
  · exact Or.inl rfl
  · split
    · exact Or.inl rfl
    · split
      · exact Or.inl rfl
      · split
        · exact Or.inl rfl
        · rename_i h
          have he : _position_is_empty_in_board pos g.board = true := by
            simpa using h
          split
          · exact Or.inr ⟨he, rfl⟩
          · split
            · exact Or.inr ⟨he, rfl⟩
            · exact Or.inr ⟨he, rfl⟩

/-- C8: a non-empty board cell keeps its mark across any move call (the only
operation that ever writes to the board, and it writes only to a cell that
the occupancy check found empty): no cell is ever reverted to empty or
overwritten with a different mark. -/
theorem claim_C8_marks_permanent (g : Game) (p : String) (pos : List Int) (r c : Nat)
    (h : boardCell g.board r c ≠ "-") :
    boardCell (move g p pos).1.board r c = boardCell g.board r c := by
  rcases move_board_eq_or g p pos with hb | ⟨he, hb⟩
  · rw [hb]
  · rw [hb]
    apply boardCell_setCell_ne
    rintro ⟨hr, hc⟩
    have hcell : boardCell g.board (posRow pos) (posCol pos) = "-" := by
      simpa [_position_is_empty_in_board] using he
    rw [hr, hc] at hcell
    exact h hcell

/-- C8 witness: the centre mark of `midGame` survives the move of O at
(0,0). -/
theorem claim_C8_marks_permanent_witness :
    boardCell (move midGame "O" [0, 0]).1.board 1 1 = boardCell midGame.board 1 1 :=
  claim_C8_marks_permanent midGame "O" [0, 0] 1 1 (by decide)

/-- C9 (amended): get_board_as_string is a pure accessor returning the fixed
layout of the source template: a leading newline, cells within a row
separated by "  |  " (two spaces on each side of the bar), rows separated by
lines of 14 dashes, and a trailing newline; a fresh game renders all 9 cells
as "-", and after marking (1,1) with A the string shows A at the centre and
"-" elsewhere. -/
theorem claim_C9_board_string (p1 p2 : String) :
    get_board_as_string (start_new_game p1 p2) =
      "\n-  |  -  |  -\n--------------\n-  |  -  |  -\n--------------\n-  |  -  |  -\n" ∧
    get_board_as_string ((move (start_new_game "A" "B") "A" [1, 1]).1) =
      "\n-  |  -  |  -\n--------------\n-  |  A  |  -\n--------------\n-  |  -  |  -\n" := by
  exact ⟨rfl, rfl⟩

/-- C9 counterexample: the fresh-game rendering uses "  |  " cell separators
and 14-dash separator rows, not the " | " separators and "-----" rows the
claim states: the rendering differs from the claim's layout. -/
theorem claim_C9_layout_cex :
    get_board_as_string (start_new_game "A" "B") =
      "\n-  |  -  |  -\n--------------\n-  |  -  |  -\n--------------\n-  |  -  |  -\n" ∧
    get_board_as_string (start_new_game "A" "B") ≠
      "- | - | -\n-----\n- | - | -\n-----\n- | - | -" := by
  exact ⟨rfl, by decide⟩
